import Mathlib

/-!
Shallow embedding of the sunny-osprey event pipeline
(`src/sunny_osprey/`): the suspicious-activity classifier and the
alert/dispatch/cleanup logic of `alert_manager.py`, `telegram_alert.py`,
`grafana_irm_alert.py` and `mqtt_processor.py`, together with theorems
settling the specification claims about them.

External collaborators (HTTP transport, the filesystem, the MQTT broker,
the LLM) are passed in as oracle functions; everything the repository's
own code computes is transcribed directly from the Python source.
-/

set_option maxRecDepth 8000

namespace SunnyOsprey

/-- A Python value, as far as the pipeline's dictionaries need: `None`,
booleans, integers, strings and string-keyed dicts.  Floating-point
values never occur in the code paths the claims are about and are
outside the embedding. -/
inductive PyVal where
  | none
  | bool (b : Bool)
  | int (n : Int)
  | str (s : String)
  | dict (fields : List (String × PyVal))
deriving Repr

/-- Python truthiness (`bool(v)`): `None`, `False`, `0`, `""` and `{}`
are falsy, everything else truthy. -/
def PyVal.truthy : PyVal → Bool
  | .none => false
  | .bool b => b
  | .int n => n != 0
  | .str s => s != ""
  | .dict fields => !fields.isEmpty

/-- Whether the value is a dict. -/
def PyVal.isDict : PyVal → Bool
  | .dict _ => true
  | _ => false

/-- Association-list lookup over a dict's fields. -/
def lookupField (fields : List (String × PyVal)) (k : String) : Option PyVal :=
  match fields with
  | [] => Option.none
  | (k', v) :: rest => if k' = k then Option.some v else lookupField rest k

/-- `d.get(k)` on a dict: the stored value, or `None` when the key is
absent.  (On a non-dict the callers in the source only reach this after
establishing the receiver is a dict; we return `None` there.) -/
def pyGet (d : PyVal) (k : String) : PyVal :=
  match d with
  | .dict fields => (lookupField fields k).getD PyVal.none
  | _ => PyVal.none

/-- `d.get(k, default)` on a dict. -/
def pyGetD (d : PyVal) (k : String) (default : PyVal) : PyVal :=
  match d with
  | .dict fields => (lookupField fields k).getD default
  | _ => default

/-- `k in d`: key membership in a dict (the call sites only apply it to
dicts; on anything else we answer `false`). -/
def pyHasKey (d : PyVal) (k : String) : Bool :=
  match d with
  | .dict fields => (lookupField fields k).isSome
  | _ => false

/-- `d.get(k)` as a Python attribute access: calling `.get` on a
non-dict raises `AttributeError`, modelled as `.error ()`. -/
def pyGetMethod (d : PyVal) (k : String) : Except Unit PyVal :=
  match d with
  | .dict fields => .ok ((lookupField fields k).getD PyVal.none)
  | _ => .error ()

/-- `d[k] = v` on a dict: replace the binding for `k` (or append it). -/
def dictSet (fields : List (String × PyVal)) (k : String) (v : PyVal) :
    List (String × PyVal) :=
  match fields with
  | [] => [(k, v)]
  | (k', v') :: rest =>
    if k' = k then (k', v) :: rest else (k', v') :: dictSet rest k v

/-- Python `str(v)` as used by the f-strings in `alert_manager.py`.
Only the string case is ever exercised by the claims; the other
renderings follow `str()` (dict rendering is abbreviated and unused by
every theorem below). -/
def pyToStr : PyVal → String
  | .str s => s
  | .none => "None"
  | .bool true => "True"
  | .bool false => "False"
  | .int n => toString n
  | .dict _ => "dict"

/-- ASCII lowercasing of one character (`str.lower` restricted to the
ASCII letters, the only characters compared at the call sites below). -/
def asciiLowerChar (c : Char) : Char :=
  if 'A' ≤ c ∧ c ≤ 'Z' then Char.ofNat (c.toNat + 32) else c

/-- `s.lower()` over ASCII. -/
def strLower (s : String) : String := String.mk (s.data.map asciiLowerChar)

/-- `s.startswith(pre)`: character-list prefix test. -/
def strStartsWith (s pre : String) : Bool := pre.data.isPrefixOf s.data

/-! ### `alert_manager.is_suspicious_activity_detected` -/

/-- The value-interpretation branch of `is_suspicious_activity_detected`
(`alert_manager.py` lines 33–50): `None` ↦ `False`; a bool is itself; a
string is compared case-insensitively against `"yes"/"true"/"1"`; a
number is its truthiness; anything else is `False`. -/
def verdictFromValue : PyVal → Bool
  | .none => false
  | .bool b => b
  | .str s => strLower s == "yes" || strLower s == "true" || strLower s == "1"
  | .int n => n != 0
  | .dict _ => false

/-- `is_suspicious_activity_detected(llm_result)` (`alert_manager.py`
lines 17–50).  Line 31 is Python's
`llm_result.get('suspicious') or llm_result.get('is_unusual_or_suspicious_activity_detected')`:
the first operand is returned when truthy, otherwise the second. -/
def is_suspicious_activity_detected (llm_result : PyVal) : Bool :=
  let first := pyGet llm_result "suspicious"
  let value :=
    if first.truthy then first
    else pyGet llm_result "is_unusual_or_suspicious_activity_detected"
  verdictFromValue value

/-! ### Sanity checks on the classifier -/

example : is_suspicious_activity_detected
    (.dict [("suspicious", .str "yes")]) = true := by decide

example : is_suspicious_activity_detected
    (.dict [("is_unusual_or_suspicious_activity_detected", .bool true)]) = true := by
  decide

example : is_suspicious_activity_detected (.dict [("error", .str "boom")]) = false := by
  decide

/-! ### `AlertManager._prepare_incident_data` and `send_incident` -/

/-- The `incident_data` dict built by `AlertManager._prepare_incident_data`
(`alert_manager.py` lines 70–94), as a structure. -/
structure IncidentData where
  event_id : String
  description : String
  video_url : String
  llm_result : PyVal
  is_suspicious : Bool
deriving Repr

/-- `AlertManager._prepare_incident_data(event_id, llm_result)`.
`video_clip_base_url` is `os.getenv('VIDEO_CLIP_BASE_URL')` captured at
construction (`None` or a string); the timestamp local `now_str` is
computed but unused by the returned dict and is omitted. -/
def prepare_incident_data (video_clip_base_url : Option String)
    (event_id : String) (llm_result : PyVal) : IncidentData :=
  let video_url :=
    match video_clip_base_url with
    | Option.some b => if b = "" then "" else b ++ "?event_id=" ++ event_id
    | Option.none => ""
  let description := pyGetD llm_result "description" (.str "No description available")
  let is_suspicious := is_suspicious_activity_detected llm_result
  let decorated_description :=
    if is_suspicious then "🚨 SECURITY ALERT 🚨" ++ "\n" ++ pyToStr description
    else "🏃 NORMAL ACTIVITY 🏃" ++ "\n" ++ pyToStr description
  let decorated_video_url := if video_url ≠ "" then "[Video Clip] " ++ video_url else ""
  { event_id := event_id
    description := decorated_description
    video_url := decorated_video_url
    llm_result := llm_result
    is_suspicious := is_suspicious }

/-- `AlertManager.send_incident(event_id, llm_result)` (`alert_manager.py`
lines 96–114).  `config` is the alerts-config dict held by the manager;
`backendSend` is `self.alert_backend.send_incident`.  Returns the call's
result together with the list of incidents passed to the backend (so a
theorem can count backend invocations). -/
def AlertManager_send_incident (config : PyVal) (video_clip_base_url : Option String)
    (backendSend : IncidentData → Bool) (event_id : String) (llm_result : PyVal) :
    Bool × List IncidentData :=
  let incident_data := prepare_incident_data video_clip_base_url event_id llm_result
  let send_all_activities := (pyGetD config "send_all_activities" (.bool false)).truthy
  let is_suspicious := incident_data.is_suspicious
  if !is_suspicious && !send_all_activities then
    (true, [])
  else
    (backendSend incident_data, [incident_data])

/-! ### `GrafanaIRMAlert` -/

/-- The payload dict built by `GrafanaIRMAlert._prepare_grafana_payload`
(`grafana_irm_alert.py` lines 32–58). -/
structure GrafanaPayload where
  title : String
  description : String
  severity : String
  status : String
  isDrill : Bool
  roomPrefix : String
  attachCaption : String
  attachURL : String
deriving Repr

/-- `GrafanaIRMAlert._prepare_grafana_payload(incident_data)`: the
description is truncated to its first 97 characters plus `"..."` when
longer than 100 characters, and embedded in a title whose prefix and
severity depend on the suspicious flag. -/
def prepare_grafana_payload (incident_data : IncidentData) : GrafanaPayload :=
  let llm_description :=
    if incident_data.description.length > 100 then
      incident_data.description.take 97 ++ "..."
    else incident_data.description
  let enhanced_title :=
    if incident_data.is_suspicious then
      "Security Alert: " ++ llm_description ++ " - Event " ++ incident_data.event_id
    else
      "NORMAL ACTIVITY: " ++ llm_description ++ " - Event " ++ incident_data.event_id
  { title := enhanced_title
    description := incident_data.description
    severity := if incident_data.is_suspicious then "critical" else "info"
    status := "active"
    isDrill := false
    roomPrefix := if incident_data.is_suspicious then "security-alert" else "normal-activity"
    attachCaption := incident_data.description
    attachURL := incident_data.video_url }

/-- State of a `GrafanaIRMAlert` object after `__init__`
(`grafana_irm_alert.py` lines 9–24): the three credentials are read from
the environment and the backend self-disables when any is missing or
empty (`_validate_config` tests `not getattr(...)`, i.e. truthiness). -/
structure GrafanaState where
  host : Option String
  username : Option String
  password : Option String
  org_id : String
  enabled : Bool
deriving Repr

/-- Truthiness of an `os.getenv` result: unset (`None`) and `""` are falsy. -/
def envTruthy : Option String → Bool
  | Option.none => false
  | Option.some s => s != ""

/-- `GrafanaIRMAlert.__init__(self)` — note the constructor takes no
configuration argument. -/
def grafanaInit (env : String → Option String) : GrafanaState :=
  let host := env "GRAFANA_HOST"
  let username := env "GRAFANA_USERNAME"
  let password := env "GRAFANA_PASSWORD"
  { host := host
    username := username
    password := password
    org_id := (env "GRAFANA_ORG_ID").getD "1"
    enabled := envTruthy host && envTruthy username && envTruthy password }

/-- `GrafanaIRMAlert.send_incident(incident_data)` (`grafana_irm_alert.py`
lines 76–93).  `post` is the HTTP transport (`requests.post` returning a
status code, or raising).  Returns the result together with the payloads
actually POSTed, so a theorem can state that a disabled backend performs
no network I/O. -/
def grafana_send_incident (st : GrafanaState)
    (post : GrafanaPayload → Except Unit Nat) (incident_data : IncidentData) :
    Bool × List GrafanaPayload :=
  if !st.enabled then
    (false, [])
  else
    let payload := prepare_grafana_payload incident_data
    match post payload with
    | .ok code => (if code = 200 || code = 201 then (true, [payload]) else (false, [payload]))
    | .error _ => (false, [payload])

/-! ### `TelegramAlert` -/

/-- State of a `TelegramAlert` object after `__init__`
(`telegram_alert.py` lines 8–24): a truthy `config` dict supplies
`bot_token`/`chat_id` (defaulting to `''`), otherwise the environment
variables are used; the backend self-disables when either value is
falsy. -/
structure TelegramState where
  telegram_token : PyVal
  telegram_chat_id : PyVal
  enabled : Bool
deriving Repr

/-- `os.getenv` as a `PyVal` (`None` or a string). -/
def envVal (env : String → Option String) (k : String) : PyVal :=
  match env k with
  | Option.some s => .str s
  | Option.none => PyVal.none

/-- `TelegramAlert.__init__(self, config)`. -/
def telegramInit (config : PyVal) (env : String → Option String) : TelegramState :=
  let token := if config.truthy then pyGetD config "bot_token" (.str "") else envVal env "TELEGRAM_BOT_TOKEN"
  let chat := if config.truthy then pyGetD config "chat_id" (.str "") else envVal env "TELEGRAM_CHAT_ID"
  { telegram_token := token
    telegram_chat_id := chat
    enabled := token.truthy && chat.truthy }

/-- Outcome of `TelegramAlert._send_telegram_video` (`telegram_alert.py`
lines 32–51): the `(path, caption)` of every `bot.send_video` attempt,
the `asyncio.sleep` backoffs performed, and whether the final exception
was re-raised. -/
structure VideoSendTrace where
  attempts : List (String × String)
  sleeps : List Nat
  raised : Bool
deriving Repr, DecidableEq

/-- One iteration step of the retry loop in `_send_telegram_video`:
`attemptOk k` tells whether the `k`-th `bot.send_video` call succeeds or
raises.  The loop body runs for `attempt = 0, 1, 2`; on failure it
re-raises when `attempt == 2` and otherwise sleeps 2 seconds and
retries.  `fuel` counts the remaining iterations (`fuel = 0` would be
loop exhaustion, unreachable from `fuel = 3`). -/
def sendTelegramVideoLoop (attemptOk : Nat → Bool) (video_path caption : String) :
    Nat → Nat → VideoSendTrace → VideoSendTrace
  | _, 0, acc => acc
  | attempt, fuel + 1, acc =>
    let acc := { acc with attempts := acc.attempts ++ [(video_path, caption)] }
    if attemptOk attempt then
      acc
    else if fuel = 0 then
      { acc with raised := true }
    else
      sendTelegramVideoLoop attemptOk video_path caption (attempt + 1) fuel
        { acc with sleeps := acc.sleeps ++ [2] }

/-- `TelegramAlert._send_telegram_video(video_path, caption)`. -/
def send_telegram_video (attemptOk : Nat → Bool) (video_path caption : String) :
    VideoSendTrace :=
  sendTelegramVideoLoop attemptOk video_path caption 0 3
    { attempts := [], sleeps := [], raised := false }

/-- Outcome of `TelegramAlert.send_incident` (`telegram_alert.py`
lines 53–80): the return value, the texts passed to
`_send_telegram_message` (none — that call is commented out in the
source), and the video-send trace when a video upload was attempted. -/
structure TelegramSendTrace where
  result : Bool
  textsSent : List String
  videoSend : Option VideoSendTrace
deriving Repr

/-- `TelegramAlert.send_incident(incident_data)`.  `pathExists` is
`os.path.exists`; `attemptOk` drives the `bot.send_video` transport.
The `messages` list is built but the `_send_telegram_message` call is
commented out, so no text is ever sent; a video is uploaded only when
`llm_result['video_path']` is a truthy value naming an existing file,
and a re-raise out of `_send_telegram_video` is caught by the outer
`except`, which returns `False`. -/
def telegram_send_incident (st : TelegramState) (pathExists : String → Bool)
    (attemptOk : Nat → Bool) (incident_data : IncidentData) : TelegramSendTrace :=
  if !st.enabled then
    { result := false, textsSent := [], videoSend := Option.none }
  else
    let video_path := pyGet incident_data.llm_result "video_path"
    if video_path.truthy then
      match video_path with
      | .str s =>
        if pathExists s then
          let caption := incident_data.description
          let trace := send_telegram_video attemptOk s caption
          if trace.raised then
            { result := false, textsSent := [], videoSend := Option.some trace }
          else
            { result := true, textsSent := [], videoSend := Option.some trace }
        else
          { result := true, textsSent := [], videoSend := Option.none }
      | _ =>
        -- `os.path.exists` on a non-string raises `TypeError`, caught by
        -- the outer `except`, which returns `False`.
        { result := false, textsSent := [], videoSend := Option.none }
    else
      { result := true, textsSent := [], videoSend := Option.none }

/-! ### `AlertManager.__init__` -/

/-- Result of running `AlertManager.__init__` (`alert_manager.py`
lines 55–68).  The `telegram` branch constructs a `TelegramAlert`; the
other branch executes `GrafanaIRMAlert(grafana_config)`, but
`GrafanaIRMAlert.__init__(self)` accepts no configuration parameter, so
that call raises `TypeError` (one positional argument too many) instead
of constructing a backend. -/
inductive AMInitResult where
  | ok (backend : TelegramState)
  | typeError
deriving Repr

/-- `AlertManager.__init__(self, config)`: lowercase the `ALERT_BACKEND`
environment value (default `"telegram"`), extract
`config.get('alerts', {}).get('telegram'/'grafana', {})`, and construct
the chosen backend. -/
def alertManagerInit (env : String → Option String) (config : PyVal) : AMInitResult :=
  let backend := strLower ((env "ALERT_BACKEND").getD "telegram")
  let alerts_config := pyGetD config "alerts" (.dict [])
  let telegram_config := pyGetD alerts_config "telegram" (.dict [])
  if backend = "telegram" then
    .ok (telegramInit telegram_config env)
  else
    -- `GrafanaIRMAlert(grafana_config)` with a zero-parameter `__init__`:
    -- `TypeError` at the call site.
    .typeError

/-! ### `FrigateEventProcessor._download_video_clip` -/

/-- Behaviour of one `requests.get` round in the download loop:
either the request (or `raise_for_status`) raises, or a body of the
given byte size is returned and written to a fresh temporary file. -/
inductive DownloadAttempt where
  | fail
  | body (size : Nat)
deriving Repr, DecidableEq

/-- Outcome of `_download_video_clip`: the returned path (`None` on
failure), every `os.remove` performed, the number of loop iterations
entered, and the `time.sleep` backoffs. -/
structure DownloadTrace where
  path : Option String
  removed : List String
  attemptsMade : Nat
  sleeps : List Nat
deriving Repr, DecidableEq

/-- The `for attempt in range(3)` loop of `_download_video_clip`
(`mqtt_processor.py` lines 211–239).  `http k` is the transport for the
`k`-th attempt and `tmpName k` the name `NamedTemporaryFile` hands out
on it.  A zero-byte download is removed and retried (after a 3-second
sleep) unless it was the last attempt, where it is removed and the
function returns `None`; a raising attempt likewise retries or returns
`None`.  `fuel` counts remaining iterations (`fuel = 0` is loop
exhaustion, unreachable from `fuel = 3` since `attempt == 2` always
returns). -/
def downloadLoop (http : Nat → DownloadAttempt) (tmpName : Nat → String) :
    Nat → Nat → List String → List Nat → DownloadTrace
  | attempt, 0, removed, sleeps =>
    { path := Option.none, removed := removed, attemptsMade := attempt, sleeps := sleeps }
  | attempt, fuel + 1, removed, sleeps =>
    match http attempt with
    | .fail =>
      if fuel = 0 then
        { path := Option.none, removed := removed, attemptsMade := attempt + 1,
          sleeps := sleeps }
      else
        downloadLoop http tmpName (attempt + 1) fuel removed (sleeps ++ [3])
    | .body size =>
      let temp_path := tmpName attempt
      if size = 0 then
        if fuel = 0 then
          { path := Option.none, removed := removed ++ [temp_path],
            attemptsMade := attempt + 1, sleeps := sleeps }
        else
          downloadLoop http tmpName (attempt + 1) fuel (removed ++ [temp_path])
            (sleeps ++ [3])
      else
        { path := Option.some temp_path, removed := removed,
          attemptsMade := attempt + 1, sleeps := sleeps }

/-- `FrigateEventProcessor._download_video_clip(event_id, event_data)`
(`mqtt_processor.py` lines 189–246).  An `event_id` with the reserved
`test_` prefix bypasses the download: the clip path is read from
`event_data['after'].get('video_path')` and returned only when it is a
truthy string naming an existing file (any exception in that branch is
caught by the outer `except`, which returns `None`).  Otherwise the
retry loop runs. -/
def download_video_clip (event_id : String) (event_data : Option PyVal)
    (pathExists : String → Bool) (http : Nat → DownloadAttempt)
    (tmpName : Nat → String) : DownloadTrace :=
  let noneTrace : DownloadTrace :=
    { path := Option.none, removed := [], attemptsMade := 0, sleeps := [] }
  if strStartsWith event_id "test_" then
    match event_data with
    | Option.some ed =>
      -- `if event_data and 'after' in event_data:`
      if ed.truthy && pyHasKey ed "after" then
        match pyGetMethod (pyGet ed "after") "video_path" with
        | .error _ => noneTrace   -- `event_data['after']` non-dict: AttributeError
        | .ok video_path =>
          -- `if video_path and os.path.exists(video_path):`
          if video_path.truthy then
            match video_path with
            | .str s => if pathExists s then { noneTrace with path := Option.some s }
                        else noneTrace
            | _ => noneTrace      -- os.path.exists on a non-string: TypeError
          else noneTrace
      else noneTrace
    | Option.none => noneTrace
  else
    downloadLoop http tmpName 0 3 [] []

/-! ### `FrigateEventProcessor._process_end_event` -/

/-- Observable actions of one `_process_end_event` run: whether
`run_inference` was called, whether `is_suspicious_activity_detected`
was called at `mqtt_processor.py` line 164, whether
`alert_manager.send_incident` was invoked, every `os.remove` performed,
and whether the outer `except Exception` at line 186 fired. -/
structure EndEventTrace where
  inferenceCalled : Bool
  classified : Bool
  sendIncidentCalled : Bool
  removed : List String
  exceptionCaught : Bool
deriving Repr, DecidableEq

/-- Lines 156–187 of `_process_end_event`, from the inference call on,
given the downloaded `video_path`.  `result` is what
`run_inference(video_path)` returned (a dict, or `None`);
`serializeOk = false` models `print(json.dumps(result, indent=2))`
raising; `sendIncident` is `alert_manager.send_incident`, which may
raise (`.error ()`).  The whole block sits in the outer `try`, so an
exception after inference skips the cleanup at lines 176–184; the
cleanup itself deletes `video_path` unless it starts with
`/app/test_videos/` (its inner `try` only logs an `os.remove`
failure). -/
def processClip (video_path : String) (result : PyVal) (serializeOk : Bool)
    (sendIncident : PyVal → Except Unit Bool) : EndEventTrace :=
  let cleanup : List String :=
    if strStartsWith video_path "/app/test_videos/" then [] else [video_path]
  if result.truthy then
    match result with
    | .dict fields =>
      let result' := PyVal.dict (dictSet fields "video_path" (.str video_path))
      if !serializeOk then
        { inferenceCalled := true, classified := false, sendIncidentCalled := false,
          removed := [], exceptionCaught := true }
      else
        -- line 164: is_suspicious = is_suspicious_activity_detected(result)
        match sendIncident result' with
        | .error _ =>
          { inferenceCalled := true, classified := true, sendIncidentCalled := true,
            removed := [], exceptionCaught := true }
        | .ok _ =>
          { inferenceCalled := true, classified := true, sendIncidentCalled := true,
            removed := cleanup, exceptionCaught := false }
    | _ =>
      -- `result['video_path'] = video_path` on a truthy non-dict: TypeError,
      -- caught by the outer except before any cleanup.
      { inferenceCalled := true, classified := false, sendIncidentCalled := false,
        removed := [], exceptionCaught := true }
  else
    { inferenceCalled := true, classified := false, sendIncidentCalled := false,
      removed := cleanup, exceptionCaught := false }

/-- `FrigateEventProcessor._process_end_event(event_data)`
(`mqtt_processor.py` lines 140–187): extract
`event_data.get("after", {}).get("id")`, bail out when it is falsy,
download the clip (bail out when that returns `None`), then run the
post-download block.  A non-string truthy id makes
`event_id.startswith('test_')` raise inside `_download_video_clip`,
whose own handler returns `None`. -/
def process_end_event (event_data : PyVal) (pathExists : String → Bool)
    (http : Nat → DownloadAttempt) (tmpName : Nat → String)
    (inference : String → PyVal) (serializeOk : Bool)
    (sendIncident : PyVal → Except Unit Bool) : EndEventTrace :=
  let quiet : EndEventTrace :=
    { inferenceCalled := false, classified := false, sendIncidentCalled := false,
      removed := [], exceptionCaught := false }
  match pyGetMethod (pyGetD event_data "after" (.dict [])) "id" with
  | .error _ => { quiet with exceptionCaught := true }
  | .ok idv =>
    if idv.truthy then
      match idv with
      | .str event_id =>
        let dl := download_video_clip event_id (Option.some event_data) pathExists http tmpName
        match dl.path with
        | Option.none => { quiet with removed := dl.removed }
        | Option.some video_path =>
          let post := processClip video_path (inference video_path) serializeOk sendIncident
          { post with removed := dl.removed ++ post.removed }
      | _ => quiet
    else quiet

/-! ### `FrigateEventProcessor._should_process_event` -/

/-- The body of the `try` in `_should_process_event`
(`mqtt_processor.py` lines 112–133).  `shouldProcessCamera` is
`self.config.should_process_camera` and `shouldSkipEvent`
`self.config.should_skip_event`; both are configuration lookups that
may raise.  Camera extraction reads `event_data['after'].get('camera')`
(or `before`), which raises `AttributeError` when the stored value is a
truthy non-dict. -/
def shouldProcessEventBody (event_data : PyVal)
    (shouldProcessCamera : PyVal → Except Unit Bool)
    (shouldSkipEvent : PyVal → Except Unit Bool) : Except Unit Bool := do
  let camera_name ←
    if pyHasKey event_data "after" && (pyGet event_data "after").truthy then
      pyGetMethod (pyGet event_data "after") "camera"
    else if pyHasKey event_data "before" && (pyGet event_data "before").truthy then
      pyGetMethod (pyGet event_data "before") "camera"
    else
      pure PyVal.none
  let early ←
    if camera_name.truthy then do
      let ok ← shouldProcessCamera camera_name
      if !ok then pure (Option.some false) else pure Option.none
    else
      pure Option.none
  match early with
  | Option.some v => pure v
  | Option.none => do
    -- `event_data.get('after', {}) or event_data.get('before', {})`
    let after := pyGetD event_data "after" (.dict [])
    let arg := if after.truthy then after else pyGetD event_data "before" (.dict [])
    let skip ← shouldSkipEvent arg
    if skip then pure false else pure true

/-- `FrigateEventProcessor._should_process_event(event_data)`: the body
above wrapped in `try/except`, the handler logging the error and
returning `True` (lines 135–138). -/
def should_process_event (event_data : PyVal)
    (shouldProcessCamera : PyVal → Except Unit Bool)
    (shouldSkipEvent : PyVal → Except Unit Bool) : Bool :=
  match shouldProcessEventBody event_data shouldProcessCamera shouldSkipEvent with
  | .ok b => b
  | .error _ => true

/-! ### Concrete instances used by the counterexamples and witnesses -/

/-- The dict `run_inference` returns when the model's reply is not valid
JSON (`llm_inference.py` line 266). -/
def errorResult : PyVal :=
  .dict [("error", .str "Invalid JSON response"), ("raw_response", .str "oops")]

/-- A minimal Frigate end event for a regular (non-test) event id. -/
def evt1Data : PyVal := .dict [("after", .dict [("id", .str "evt1")])]

/-- A result dict in which the new `suspicious` field explicitly says
`False` while the legacy field says `True`. -/
def conflictResult : PyVal :=
  .dict [("suspicious", .bool false),
         ("is_unusual_or_suspicious_activity_detected", .bool true)]

/-- An environment in which only `ALERT_BACKEND=grafana` is set. -/
def grafanaEnv : String → Option String :=
  fun k => if k = "ALERT_BACKEND" then Option.some "grafana" else Option.none

/-- A 101-character description. -/
def longDescription : String := String.mk (List.replicate 101 'a')

/-- A concrete incident carrying the 101-character description. -/
def longIncident : IncidentData :=
  { event_id := "e1", description := longDescription, video_url := "",
    llm_result := PyVal.none, is_suspicious := true }

/-- A concrete incident whose `llm_result` carries an existing clip path. -/
def clipIncident : IncidentData :=
  { event_id := "e2", description := "🚨 SECURITY ALERT 🚨\nperson at door",
    video_url := "", llm_result := .dict [("video_path", .str "/tmp/v.mp4")],
    is_suspicious := true }

/-- A Telegram backend constructed with both credentials present. -/
def telegramEnabledState : TelegramState :=
  telegramInit (.dict [("bot_token", .str "T"), ("chat_id", .str "C")])
    (fun _ => Option.none)

/-! ## Theorems for the claims -/

/-- C3, counterexample: with `suspicious` present and equal to `False`
(a non-`None` value) and the legacy key equal to `True`, the verdict is
`True`, not the `False` that the `suspicious` value alone dictates — so
the legacy key is consulted even though `suspicious` is present and
non-`None`, refuting the claim as stated. -/
theorem C3_falsy_suspicious_cex :
    pyGet conflictResult "suspicious" = PyVal.bool false
    ∧ is_suspicious_activity_detected conflictResult = true
    ∧ verdictFromValue (PyVal.bool false) = false :=
  ⟨rfl, by decide, by decide⟩

/-- C3, amended: Python's `or` at `alert_manager.py` line 31 falls
through to the legacy key whenever the `suspicious` value is *falsy*
(absent, `None`, `False`, `0`, or `""`), not merely when it is absent
or `None`; when the `suspicious` value is truthy the verdict is
determined solely from it. -/
theorem C3_or_precedence (llm_result : PyVal) :
    ((pyGet llm_result "suspicious").truthy = true →
      is_suspicious_activity_detected llm_result =
        verdictFromValue (pyGet llm_result "suspicious"))
    ∧ ((pyGet llm_result "suspicious").truthy = false →
      is_suspicious_activity_detected llm_result =
        verdictFromValue
          (pyGet llm_result "is_unusual_or_suspicious_activity_detected")) := by
  unfold is_suspicious_activity_detected
  constructor <;> intro h <;> simp [h]

/-- Witness for `C3_or_precedence` at the conflicting-fields dict. -/
theorem C3_or_precedence_witness :
    is_suspicious_activity_detected conflictResult =
      verdictFromValue
        (pyGet conflictResult "is_unusual_or_suspicious_activity_detected") :=
  (C3_or_precedence conflictResult).2 (by decide)

/-- C6: `AlertManager.send_incident` invokes the backend's send exactly
when the event is suspicious or `send_all_activities` is truthy; a
normal event with the flag off performs no backend call and returns
`True`; a suspicious event triggers exactly one backend send regardless
of the flag. -/
theorem C6_dispatch_policy (config : PyVal) (base : Option String)
    (backendSend : IncidentData → Bool) (event_id : String) (llm_result : PyVal) :
    (AlertManager_send_incident config base backendSend event_id llm_result).2.length
      = (if is_suspicious_activity_detected llm_result
            || (pyGetD config "send_all_activities" (PyVal.bool false)).truthy
         then 1 else 0)
    ∧ (is_suspicious_activity_detected llm_result = false →
       (pyGetD config "send_all_activities" (PyVal.bool false)).truthy = false →
        AlertManager_send_incident config base backendSend event_id llm_result
          = (true, []))
    ∧ (is_suspicious_activity_detected llm_result = true →
        (AlertManager_send_incident config base backendSend event_id llm_result).2.length
          = 1) := by
  cases hs : is_suspicious_activity_detected llm_result <;>
    cases hf : (pyGetD config "send_all_activities" (PyVal.bool false)).truthy <;>
      simp [AlertManager_send_incident, prepare_incident_data, hs, hf]

/-- Witness for `C6_dispatch_policy`: a suspicious event with the flag
off triggers exactly one backend send. -/
theorem C6_dispatch_policy_witness :
    (AlertManager_send_incident (PyVal.dict []) Option.none (fun _ => true) "e1"
      (PyVal.dict [("suspicious", PyVal.bool true)])).2.length = 1 :=
  (C6_dispatch_policy (PyVal.dict []) Option.none (fun _ => true) "e1"
    (PyVal.dict [("suspicious", PyVal.bool true)])).2.2 (by decide)

/-- C9, counterexample: for a 101-character description the Grafana
title embeds the first 97 characters followed by `"..."`, not the first
100 characters followed by the ellipsis marker. -/
theorem C9_truncation_cex :
    (prepare_grafana_payload longIncident).title
      = "Security Alert: " ++ (longDescription.take 97 ++ "...") ++ " - Event e1"
    ∧ (prepare_grafana_payload longIncident).title
      ≠ "Security Alert: " ++ (longDescription.take 100 ++ "...") ++ " - Event e1" := by
  constructor
  · rfl
  · decide

/-- C9, amended: a decorated description longer than 100 characters is
embedded in the title as its first **97** characters followed by
`"..."`; descriptions of at most 100 characters are embedded
unchanged. -/
theorem C9_truncation_amended (incident_data : IncidentData) :
    (incident_data.description.length > 100 →
      (prepare_grafana_payload incident_data).title =
        (if incident_data.is_suspicious then "Security Alert: "
         else "NORMAL ACTIVITY: ")
          ++ (incident_data.description.take 97 ++ "...")
          ++ " - Event " ++ incident_data.event_id)
    ∧ (incident_data.description.length ≤ 100 →
      (prepare_grafana_payload incident_data).title =
        (if incident_data.is_suspicious then "Security Alert: "
         else "NORMAL ACTIVITY: ")
          ++ incident_data.description
          ++ " - Event " ++ incident_data.event_id) := by
  cases hs : incident_data.is_suspicious <;>
    constructor <;> intro h <;>
      simp [prepare_grafana_payload, hs, h, Nat.not_lt.mpr h]

/-- Witness for `C9_truncation_amended` at the 101-character incident. -/
theorem C9_truncation_amended_witness :
    (prepare_grafana_payload longIncident).title =
      (if longIncident.is_suspicious then "Security Alert: "
       else "NORMAL ACTIVITY: ")
        ++ (longIncident.description.take 97 ++ "...")
        ++ " - Event " ++ longIncident.event_id :=
  (C9_truncation_amended longIncident).1 (by decide)

/-- C10: the event filter fails open — whenever the body of
`_should_process_event` raises, the `except` handler returns `True` and
the event is processed. -/
theorem C10_filter_fails_open (event_data : PyVal)
    (shouldProcessCamera shouldSkipEvent : PyVal → Except Unit Bool)
    (h : shouldProcessEventBody event_data shouldProcessCamera shouldSkipEvent
          = .error ()) :
    should_process_event event_data shouldProcessCamera shouldSkipEvent = true := by
  unfold should_process_event
  rw [h]

/-- Witness for `C10_filter_fails_open`: an event whose `after` field is
a truthy non-dict makes camera extraction raise `AttributeError`, and
the event is processed. -/
theorem C10_filter_fails_open_witness :
    should_process_event (PyVal.dict [("after", PyVal.str "cam")])
      (fun _ => .ok true) (fun _ => .ok true) = true :=
  C10_filter_fails_open (PyVal.dict [("after", PyVal.str "cam")])
    (fun _ => .ok true) (fun _ => .ok true) rfl

/-- C4: the claim is right about the intent (a backend missing its
configuration self-disables at construction and sends nothing), and
both backends do behave that way when constructed directly — but
`AlertManager.__init__` calls `GrafanaIRMAlert(grafana_config)` while
`GrafanaIRMAlert.__init__(self)` accepts no configuration parameter, so
with `ALERT_BACKEND=grafana` the construction raises `TypeError`
instead of producing a self-disabled backend. -/
theorem C4_grafana_init_type_error :
    alertManagerInit grafanaEnv (PyVal.dict []) = AMInitResult.typeError
    ∧ (grafanaInit (fun _ => Option.none)).enabled = false
    ∧ grafana_send_incident (grafanaInit (fun _ => Option.none))
        (fun _ => .ok 200) longIncident = (false, [])
    ∧ (telegramInit (.dict [("bot_token", .str ""), ("chat_id", .str "")])
        (fun _ => Option.none)).enabled = false
    ∧ (telegram_send_incident
        (telegramInit (.dict [("bot_token", .str ""), ("chat_id", .str "")])
          (fun _ => Option.none))
        (fun _ => true) (fun _ => true) clipIncident).result = false
    ∧ (telegram_send_incident
        (telegramInit (.dict [("bot_token", .str ""), ("chat_id", .str "")])
          (fun _ => Option.none))
        (fun _ => true) (fun _ => true) clipIncident).videoSend = Option.none :=
  ⟨rfl, rfl, rfl, rfl, rfl, rfl⟩

/-- C1, counterexample: after `run_inference` returns the error dict,
`_process_end_event` *does* classify it (line 164) and *does* invoke
`AlertManager.send_incident` (line 170), because the `if result:` guard
only tests truthiness and an error dict is truthy. -/
theorem C1_error_result_is_classified_cex :
    pyHasKey errorResult "error" = true
    ∧ (process_end_event evt1Data (fun _ => false) (fun _ => DownloadAttempt.body 5)
        (fun _ => "/tmp/clip0") (fun _ => errorResult) true
        (fun _ => .ok true)).classified = true
    ∧ (process_end_event evt1Data (fun _ => false) (fun _ => DownloadAttempt.body 5)
        (fun _ => "/tmp/clip0") (fun _ => errorResult) true
        (fun _ => .ok true)).sendIncidentCalled = true := by
  decide

/-- C1, amended: `_process_end_event` guards the post-inference block
with `if result:` only, so *any* truthy result dict — in particular one
carrying an `error` key — is classified and passed to
`AlertManager.send_incident`; only a falsy result (`None`) skips
classification and alert dispatch. -/
theorem C1_truthiness_gate (video_path : String)
    (fields : List (String × PyVal)) (sendIncident : PyVal → Except Unit Bool)
    (b : Bool) (hne : fields ≠ [])
    (hsend : sendIncident (PyVal.dict (dictSet fields "video_path" (.str video_path)))
              = .ok b) :
    ((processClip video_path (PyVal.dict fields) true sendIncident).classified = true
      ∧ (processClip video_path (PyVal.dict fields) true
          sendIncident).sendIncidentCalled = true)
    ∧ ((processClip video_path PyVal.none true sendIncident).classified = false
      ∧ (processClip video_path PyVal.none true
          sendIncident).sendIncidentCalled = false) := by
  have htr : (PyVal.dict fields).truthy = true := by
    cases fields with
    | nil => exact absurd rfl hne
    | cons f rest => simp [PyVal.truthy]
  constructor
  · constructor <;> simp [processClip, htr, hsend]
  · constructor <;> simp [processClip, PyVal.truthy]

/-- Witness for `C1_truthiness_gate` at the concrete error dict. -/
theorem C1_truthiness_gate_witness :
    (processClip "/tmp/clip0"
      (PyVal.dict [("error", PyVal.str "Invalid JSON response")]) true
      (fun _ => .ok true)).classified = true :=
  (C1_truthiness_gate "/tmp/clip0" [("error", PyVal.str "Invalid JSON response")]
    (fun _ => .ok true) true (by simp) rfl).1.1

/-- C2, counterexample: the cleanup at `mqtt_processor.py` lines 176–184
sits inside the `try`, not in a `finally`; when
`alert_manager.send_incident` raises after inference, the outer
`except` catches the exception and the ephemeral clip `/tmp/clip0` is
never deleted. -/
theorem C2_exception_skips_cleanup_cex :
    (strStartsWith "/tmp/clip0" "/app/test_videos/") = false
    ∧ (process_end_event evt1Data (fun _ => false) (fun _ => DownloadAttempt.body 5)
        (fun _ => "/tmp/clip0") (fun _ => errorResult) true
        (fun _ => .error ())).exceptionCaught = true
    ∧ (process_end_event evt1Data (fun _ => false) (fun _ => DownloadAttempt.body 5)
        (fun _ => "/tmp/clip0") (fun _ => errorResult) true
        (fun _ => .error ())).removed = [] := by
  decide

/-- C2, amended: the ephemeral clip is deleted on the exit paths that
fall through to lines 176–184 — inference returned a falsy result, or
the whole post-inference block ran without raising — but an exception
raised between inference and the end of processing (during
serialization or alert dispatch) is caught by the outer `except` before
the cleanup runs, so the clip file is *not* deleted there. -/
theorem C2_cleanup_paths (video_path : String) (result : PyVal)
    (sendIncident : PyVal → Except Unit Bool)
    (hpath : strStartsWith video_path "/app/test_videos/" = false) :
    (result.truthy = false →
      (processClip video_path result true sendIncident).removed = [video_path]
      ∧ (processClip video_path result true sendIncident).exceptionCaught = false)
    ∧ (∀ fields b, result = PyVal.dict fields → fields ≠ [] →
        sendIncident (PyVal.dict (dictSet fields "video_path" (.str video_path)))
          = .ok b →
        (processClip video_path result true sendIncident).removed = [video_path])
    ∧ (∀ fields, result = PyVal.dict fields → fields ≠ [] →
        (processClip video_path result false sendIncident).removed = []
        ∧ (processClip video_path result false sendIncident).exceptionCaught = true)
    ∧ (∀ fields, result = PyVal.dict fields → fields ≠ [] →
        sendIncident (PyVal.dict (dictSet fields "video_path" (.str video_path)))
          = .error () →
        (processClip video_path result true sendIncident).removed = []
        ∧ (processClip video_path result true sendIncident).exceptionCaught = true) := by
  refine ⟨?_, ?_, ?_, ?_⟩
  · intro hf
    constructor <;> simp [processClip, hf, hpath]
  · intro fields b hres hne hsend
    subst hres
    have htr : (PyVal.dict fields).truthy = true := by
      cases fields with
      | nil => exact absurd rfl hne
      | cons f rest => simp [PyVal.truthy]
    simp [processClip, htr, hsend, hpath]
  · intro fields hres hne
    subst hres
    have htr : (PyVal.dict fields).truthy = true := by
      cases fields with
      | nil => exact absurd rfl hne
      | cons f rest => simp [PyVal.truthy]
    constructor <;> simp [processClip, htr]
  · intro fields hres hne hsend
    subst hres
    have htr : (PyVal.dict fields).truthy = true := by
      cases fields with
      | nil => exact absurd rfl hne
      | cons f rest => simp [PyVal.truthy]
    constructor <;> simp [processClip, htr, hsend]

/-- Witness for `C2_cleanup_paths`: the raising-dispatch path at a
concrete input leaves the clip file in place. -/
theorem C2_cleanup_paths_witness :
    (processClip "/tmp/clip0"
      (PyVal.dict [("error", PyVal.str "Invalid JSON response")]) true
      (fun _ => .error ())).removed = [] :=
  ((C2_cleanup_paths "/tmp/clip0"
      (PyVal.dict [("error", PyVal.str "Invalid JSON response")])
      (fun _ => .error ()) (by decide)).2.2.2
    [("error", PyVal.str "Invalid JSON response")] rfl (by simp) rfl).1

/-- C7: against a download endpoint that always returns zero-byte
bodies, a non-test event causes exactly 3 download attempts, the empty
temporary file of each attempt is deleted (before each retry and after
the final attempt), the fetch returns `None`, and the event is skipped:
no inference, no classification, no alert, and no process-level
exception. -/
theorem C7_zero_byte_download (event_id : String) (event_data : Option PyVal)
    (pathExists : String → Bool) (http : Nat → DownloadAttempt)
    (tmpName : Nat → String) (inference : String → PyVal) (serializeOk : Bool)
    (sendIncident : PyVal → Except Unit Bool)
    (hid : strStartsWith event_id "test_" = false) (hne : event_id ≠ "")
    (hhttp : ∀ k, http k = DownloadAttempt.body 0) :
    download_video_clip event_id event_data pathExists http tmpName =
      { path := Option.none, removed := [tmpName 0, tmpName 1, tmpName 2],
        attemptsMade := 3, sleeps := [3, 3] }
    ∧ process_end_event (PyVal.dict [("after", PyVal.dict [("id", PyVal.str event_id)])])
        pathExists http tmpName inference serializeOk sendIncident =
      { inferenceCalled := false, classified := false, sendIncidentCalled := false,
        removed := [tmpName 0, tmpName 1, tmpName 2], exceptionCaught := false } := by
  have hfun : http = fun _ => DownloadAttempt.body 0 := funext hhttp
  subst hfun
  have hdl : download_video_clip event_id event_data pathExists
      (fun _ => DownloadAttempt.body 0) tmpName =
      { path := Option.none, removed := [tmpName 0, tmpName 1, tmpName 2],
        attemptsMade := 3, sleeps := [3, 3] } := by
    simp [download_video_clip, hid, downloadLoop]
  refine ⟨hdl, ?_⟩
  have htr : (PyVal.str event_id).truthy = true := by
    simp [PyVal.truthy, hne]
  have hdl2 : download_video_clip event_id
      (Option.some (PyVal.dict [("after", PyVal.dict [("id", PyVal.str event_id)])]))
      pathExists (fun _ => DownloadAttempt.body 0) tmpName =
      { path := Option.none, removed := [tmpName 0, tmpName 1, tmpName 2],
        attemptsMade := 3, sleeps := [3, 3] } := by
    simp [download_video_clip, hid, downloadLoop]
  simp [process_end_event, pyGetMethod, pyGetD, lookupField, htr, hdl2]

/-- Witness for `C7_zero_byte_download` at a concrete event id and
temporary-file names. -/
theorem C7_zero_byte_download_witness :
    download_video_clip "evt1" Option.none (fun _ => false)
      (fun _ => DownloadAttempt.body 0) (fun k => "/tmp/t" ++ toString k) =
      { path := Option.none, removed := ["/tmp/t0", "/tmp/t1", "/tmp/t2"],
        attemptsMade := 3, sleeps := [3, 3] } :=
  (C7_zero_byte_download "evt1" Option.none (fun _ => false)
    (fun _ => DownloadAttempt.body 0) (fun k => "/tmp/t" ++ toString k)
    (fun _ => PyVal.none) true (fun _ => .ok true)
    (by decide) (by decide) (fun _ => rfl)).1

/-- Every path the download loop removes was handed out by
`NamedTemporaryFile` (it is `tmpName k` for some attempt `k`) or was
already in the accumulator. -/
theorem downloadLoop_removed_mem (http : Nat → DownloadAttempt)
    (tmpName : Nat → String) :
    ∀ (fuel attempt : Nat) (removed : List String) (sleeps : List Nat) (x : String),
      x ∈ (downloadLoop http tmpName attempt fuel removed sleeps).removed →
      x ∈ removed ∨ ∃ k, x = tmpName k := by
  intro fuel
  induction fuel with
  | zero => intro attempt removed sleeps x hx; exact Or.inl hx
  | succ fuel ih =>
    intro attempt removed sleeps x hx
    simp only [downloadLoop] at hx
    cases hcase : http attempt with
    | fail =>
      rw [hcase] at hx
      by_cases hf : fuel = 0
      · simp [hf] at hx
        exact Or.inl hx
      · simp [hf] at hx
        exact ih (attempt + 1) removed (sleeps ++ [3]) x hx
    | body size =>
      rw [hcase] at hx
      by_cases hz : size = 0
      · by_cases hf : fuel = 0
        · simp [hz, hf] at hx
          rcases hx with h | h
          · exact Or.inl h
          · exact Or.inr ⟨attempt, h⟩
        · simp [hz, hf] at hx
          rcases ih (attempt + 1) (removed ++ [tmpName attempt]) (sleeps ++ [3]) x hx
            with h | h
          · rcases List.mem_append.mp h with h' | h'
            · exact Or.inl h'
            · exact Or.inr ⟨attempt, List.mem_singleton.mp h'⟩
          · exact Or.inr h
      · simp [hz] at hx
        exact Or.inl hx

/-- Every path `_download_video_clip` removes is a temporary-file name. -/
theorem download_video_clip_removed_mem (event_id : String)
    (event_data : Option PyVal) (pathExists : String → Bool)
    (http : Nat → DownloadAttempt) (tmpName : Nat → String) (x : String)
    (hx : x ∈ (download_video_clip event_id event_data pathExists http
                tmpName).removed) :
    ∃ k, x = tmpName k := by
  by_cases ht : strStartsWith event_id "test_"
  · simp only [download_video_clip, ht, if_true] at hx
    repeat' split at hx
    all_goals simp_all
  · simp only [download_video_clip, ht, if_false, Bool.false_eq_true] at hx
    rcases downloadLoop_removed_mem http tmpName 3 0 [] [] x hx with h | h
    · simp at h
    · exact h

/-- Everything `processClip` removes is the downloaded clip itself, and
only when its path is outside `/app/test_videos/`. -/
theorem processClip_removed_mem (video_path : String) (result : PyVal)
    (serializeOk : Bool) (sendIncident : PyVal → Except Unit Bool) (x : String)
    (hx : x ∈ (processClip video_path result serializeOk sendIncident).removed) :
    x = video_path ∧ strStartsWith video_path "/app/test_videos/" = false := by
  simp only [processClip] at hx
  repeat' split at hx
  all_goals simp_all

/-- C8, counterexample: a test/bypass event whose payload clip path
points outside `/app/test_videos/` — here `/tmp/x.mp4` — has that very
file deleted by the cleanup at the end of `_process_end_event`,
refuting "never deletes the referenced file regardless of where on disk
that path points". -/
theorem C8_test_clip_deleted_cex :
    (process_end_event
      (PyVal.dict [("after", PyVal.dict
        [("id", PyVal.str "test_9"), ("video_path", PyVal.str "/tmp/x.mp4")])])
      (fun s => s == "/tmp/x.mp4") (fun _ => DownloadAttempt.fail)
      (fun _ => "/tmp/unused") (fun _ => PyVal.none) true
      (fun _ => .ok true)).removed = ["/tmp/x.mp4"] := by
  decide

/-- C8, amended: the cleanup's protection is keyed on the path prefix
`/app/test_videos/`, not on how the clip reference was obtained: the
pipeline never deletes a file under `/app/test_videos/` (temporary
download names are never under that directory), while a test/bypass
clip stored elsewhere *is* deleted by the cleanup. -/
theorem C8_protected_directory (event_data : PyVal) (pathExists : String → Bool)
    (http : Nat → DownloadAttempt) (tmpName : Nat → String)
    (inference : String → PyVal) (serializeOk : Bool)
    (sendIncident : PyVal → Except Unit Bool) (p : String)
    (hp : strStartsWith p "/app/test_videos/" = true)
    (htmp : ∀ k, tmpName k ≠ p) :
    p ∉ (process_end_event event_data pathExists http tmpName inference
          serializeOk sendIncident).removed := by
  intro hmem
  unfold process_end_event at hmem
  cases hid : pyGetMethod (pyGetD event_data "after" (.dict [])) "id" with
  | error e => rw [hid] at hmem; simp at hmem
  | ok idv =>
    rw [hid] at hmem
    by_cases htr : idv.truthy
    · simp [htr] at hmem
      cases idv <;> simp at hmem
      rename_i event_id
      cases hdl : (download_video_clip event_id (Option.some event_data) pathExists
          http tmpName).path with
      | none =>
        rw [hdl] at hmem
        simp at hmem
        rcases download_video_clip_removed_mem event_id (Option.some event_data)
          pathExists http tmpName p hmem with ⟨k, hk⟩
        exact htmp k hk.symm
      | some video_path =>
        rw [hdl] at hmem
        simp at hmem
        rcases hmem with h | h
        · rcases download_video_clip_removed_mem event_id (Option.some event_data)
            pathExists http tmpName p h with ⟨k, hk⟩
          exact htmp k hk.symm
        · rcases processClip_removed_mem video_path (inference video_path)
            serializeOk sendIncident p h with ⟨hpv, hnp⟩
          rw [hpv] at hp
          rw [hp] at hnp
          exact absurd hnp (by simp)
    · simp [htr] at hmem

/-- Witness for `C8_protected_directory`: a test event whose payload
points into `/app/test_videos/` keeps its clip. -/
theorem C8_protected_directory_witness :
    "/app/test_videos/a.mp4" ∉ (process_end_event
      (PyVal.dict [("after", PyVal.dict
        [("id", PyVal.str "test_9"),
         ("video_path", PyVal.str "/app/test_videos/a.mp4")])])
      (fun _ => true) (fun _ => DownloadAttempt.fail) (fun _ => "/tmp/unused")
      (fun _ => PyVal.none) true (fun _ => .ok true)).removed :=
  C8_protected_directory
    (PyVal.dict [("after", PyVal.dict
      [("id", PyVal.str "test_9"),
       ("video_path", PyVal.str "/app/test_videos/a.mp4")])])
    (fun _ => true) (fun _ => DownloadAttempt.fail) (fun _ => "/tmp/unused")
    (fun _ => PyVal.none) true (fun _ => .ok true) "/app/test_videos/a.mp4"
    (by decide)
    (fun _ => (by decide : ("/tmp/unused" : String) ≠ "/app/test_videos/a.mp4"))

/-- C5, counterexample: for an incident dispatched through an enabled
Telegram backend, no text message is sent — the
`_send_telegram_message` call at `telegram_alert.py` line 71 is
commented out — even though the video upload succeeds and the call
returns `True`. -/
theorem C5_no_text_message_cex :
    telegramEnabledState.enabled = true
    ∧ (telegram_send_incident telegramEnabledState (fun _ => true) (fun _ => true)
        clipIncident).textsSent = []
    ∧ (telegram_send_incident telegramEnabledState (fun _ => true) (fun _ => true)
        clipIncident).result = true
    ∧ (telegram_send_incident telegramEnabledState (fun _ => true) (fun _ => true)
        clipIncident).videoSend =
      Option.some { attempts := [("/tmp/v.mp4", clipIncident.description)],
                    sleeps := [], raised := false } := by
  refine ⟨rfl, rfl, rfl, rfl⟩

/-- C5, amended: the enabled Telegram backend sends **no** text
notification (that call is commented out in the source); when the
incident's `llm_result` carries a clip path that exists on disk, the
clip is uploaded as a video message with the decorated description as
caption, with up to 3 upload attempts and a 2-second backoff between
attempts; after the third failed attempt `_send_telegram_video`
re-raises, and `send_incident`'s own handler catches the re-raised
error and returns `False`. -/
theorem C5_video_upload_behaviour (st : TelegramState)
    (pathExists : String → Bool) (incident_data : IncidentData) (p : String)
    (hen : st.enabled = true)
    (hvp : pyGet incident_data.llm_result "video_path" = PyVal.str p)
    (hp : p ≠ "") (hex : pathExists p = true) :
    (∀ attemptOk,
      (telegram_send_incident st pathExists attemptOk incident_data).textsSent = [])
    ∧ (∀ attemptOk, attemptOk 0 = true →
        telegram_send_incident st pathExists attemptOk incident_data =
          { result := true, textsSent := [],
            videoSend := Option.some
              { attempts := [(p, incident_data.description)], sleeps := [],
                raised := false } })
    ∧ (∀ attemptOk, (∀ k, attemptOk k = false) →
        telegram_send_incident st pathExists attemptOk incident_data =
          { result := false, textsSent := [],
            videoSend := Option.some
              { attempts := [(p, incident_data.description),
                             (p, incident_data.description),
                             (p, incident_data.description)],
                sleeps := [2, 2], raised := true } }) := by
  have htr : (PyVal.str p).truthy = true := by simp [PyVal.truthy, hp]
  refine ⟨?_, ?_, ?_⟩
  · intro attemptOk
    cases h : (send_telegram_video attemptOk p incident_data.description).raised <;>
      simp [telegram_send_incident, hen, hvp, htr, hex, h]
  · intro attemptOk h0
    simp [telegram_send_incident, hen, hvp, htr, hex, send_telegram_video,
      sendTelegramVideoLoop, h0]
  · intro attemptOk hk
    have hfun : attemptOk = fun _ => false := funext hk
    subst hfun
    simp [telegram_send_incident, hen, hvp, htr, hex, send_telegram_video,
      sendTelegramVideoLoop]

/-- Witness for `C5_video_upload_behaviour`: the persistent-failure
branch at a concrete enabled backend and incident. -/
theorem C5_video_upload_behaviour_witness :
    telegram_send_incident telegramEnabledState (fun _ => true) (fun _ => false)
      clipIncident =
      { result := false, textsSent := [],
        videoSend := Option.some
          { attempts := [("/tmp/v.mp4", clipIncident.description),
                         ("/tmp/v.mp4", clipIncident.description),
                         ("/tmp/v.mp4", clipIncident.description)],
            sleeps := [2, 2], raised := true } } :=
  (C5_video_upload_behaviour telegramEnabledState (fun _ => true) clipIncident
    "/tmp/v.mp4" rfl rfl (by decide) rfl).2.2 (fun _ => false) (fun _ => rfl)

end SunnyOsprey
